import Mathlib

/-!
Verification of the rsjvm class-file reader against its specification.

The Rust sources are shallowly embedded: machine integers are modelled as
Nat (unsigned) or Int (signed two's complement reinterpretation), byte
slices as List Nat, fallible functions return Except, and functions that
may additionally hit a Rust panic or todo return the Outcome type below.
f32/f64 fields are modelled by their big-endian bit patterns (Nat), since
no claim depends on floating-point arithmetic.  Each definition mirrors
one item of the source; the module a definition comes from is noted next
to it.
-/

/-- Errors of src/byte_reader.rs.  The Cesu8DecodingError payload wraps an
external crate error and is modelled without its cause. -/
inductive ReadError where
  | UnexpectedEOF
  | Cesu8DecodingError
deriving DecidableEq, Repr

/-- ByteReader of src/byte_reader.rs: an input slice and a cursor position. -/
structure ByteReader where
  buf : List Nat
  pos : Nat
deriving DecidableEq, Repr

/-- ByteReader::new. -/
def ByteReader.new (data : List Nat) : ByteReader :=
  { buf := data, pos := 0 }

/-- ByteReader::read_bytes.  The source checks bounds and returns the slice
buf[pos..pos+size]; it does not modify pos, so the returned reader is the
input reader unchanged (mirroring the &mut self that is left untouched). -/
def ByteReader.read_bytes (r : ByteReader) (size : Nat) :
    Except ReadError (List Nat × ByteReader) :=
  if r.pos + size > r.buf.length then
    .error .UnexpectedEOF
  else
    .ok ((r.buf.drop r.pos).take size, r)

/-- Big-endian value of a byte list (uN::from_be_bytes). -/
def beBytesToNat (bytes : List Nat) : Nat :=
  bytes.foldl (fun acc b => acc * 256 + b) 0

/-- Reinterpret an unsigned w-bit value as a signed one (two's complement),
modelling the iN::from_be_bytes results. -/
def toSigned (w : Nat) (n : Nat) : Int :=
  if n < 2 ^ (w - 1) then (n : Int) else (n : Int) - 2 ^ w

/-- ByteReader::read_u8. -/
def ByteReader.read_u8 (r : ByteReader) : Except ReadError (Nat × ByteReader) := do
  let (s, r) ← r.read_bytes 1
  .ok (beBytesToNat s, r)

/-- ByteReader::read_u16. -/
def ByteReader.read_u16 (r : ByteReader) : Except ReadError (Nat × ByteReader) := do
  let (s, r) ← r.read_bytes 2
  .ok (beBytesToNat s, r)

/-- ByteReader::read_u32. -/
def ByteReader.read_u32 (r : ByteReader) : Except ReadError (Nat × ByteReader) := do
  let (s, r) ← r.read_bytes 4
  .ok (beBytesToNat s, r)

/-- ByteReader::read_i32. -/
def ByteReader.read_i32 (r : ByteReader) : Except ReadError (Int × ByteReader) := do
  let (s, r) ← r.read_bytes 4
  .ok (toSigned 32 (beBytesToNat s), r)

/-- ByteReader::read_i64. -/
def ByteReader.read_i64 (r : ByteReader) : Except ReadError (Int × ByteReader) := do
  let (s, r) ← r.read_bytes 8
  .ok (toSigned 64 (beBytesToNat s), r)

/-- ByteReader::read_f32, modelled by the big-endian bit pattern of the float. -/
def ByteReader.read_f32 (r : ByteReader) : Except ReadError (Nat × ByteReader) := do
  let (s, r) ← r.read_bytes 4
  .ok (beBytesToNat s, r)

/-- ByteReader::read_f64, modelled by the big-endian bit pattern of the float. -/
def ByteReader.read_f64 (r : ByteReader) : Except ReadError (Nat × ByteReader) := do
  let (s, r) ← r.read_bytes 8
  .ok (beBytesToNat s, r)

/-- ByteReader::read_utf8.  The cesu8 decoding is performed by an external
crate; the result is modelled as the raw byte list that was read. -/
def ByteReader.read_utf8 (r : ByteReader) (len : Nat) :
    Except ReadError (List Nat × ByteReader) :=
  r.read_bytes len

/-- Errors of src/constant_pool.rs (the misspelling UnsuableConstant is the
source's). -/
inductive ConstantPoolError where
  | IndexOutOfBounds (index : Nat)
  | UnsuableConstant (index : Nat)
deriving DecidableEq, Repr

/-- Constant of src/constant_pool.rs.  Utf8 carries the raw bytes that were
decoded (see ByteReader.read_utf8); Float and Double carry bit patterns. -/
inductive Constant where
  | Utf8 (bytes : List Nat)
  | Integer (value : Int)
  | Float (bits : Nat)
  | Long (value : Int)
  | Double (bits : Nat)
  | ClassIndex (idx : Nat)
  | StringIndex (idx : Nat)
  | FieldRef (a b : Nat)
  | MethodRef (a b : Nat)
  | InterfaceMethodRef (a b : Nat)
  | NameAndType (a b : Nat)
  | MethodHandle (kind : Nat) (idx : Nat)
  | MethodType (idx : Nat)
  | Dynamic (a b : Nat)
  | InvokeDynamic (a b : Nat)
  | Module (idx : Nat)
  | Package (idx : Nat)
  | Unsuable
deriving DecidableEq, Repr

/-- The matches!(constant, Long(_) | Double(_)) test used by ConstantPool::add. -/
def Constant.isWideEntry : Constant → Bool
  | .Long _ => true
  | .Double _ => true
  | _ => false

/-- ConstantPool of src/constant_pool.rs. -/
structure ConstantPool where
  constants : List Constant
deriving DecidableEq, Repr

/-- ConstantPool::default(). -/
def ConstantPool.empty : ConstantPool := ⟨[]⟩

/-- ConstantPool::add: push the constant, then push an Unsuable sentinel if
it was a Long or Double. -/
def ConstantPool.add (p : ConstantPool) (c : Constant) : ConstantPool :=
  let constants := p.constants ++ [c]
  if c.isWideEntry then ⟨constants ++ [.Unsuable]⟩ else ⟨constants⟩

/-- ConstantPool::get: a direct Vec lookup at the given index. -/
def ConstantPool.get (p : ConstantPool) (index : Nat) :
    Except ConstantPoolError Constant :=
  match p.constants[index]? with
  | some .Unsuable => .error (.UnsuableConstant index)
  | some c => .ok c
  | none => .error (.IndexOutOfBounds index)

namespace Rsjvm

/-- Errors of src/class_file_version.rs (rsjvm crate). -/
inductive FileVersionError where
  | UnsupportedMajorVersion (v : Nat)
  | UnsupportedMinorVersion (major minor : Nat)
deriving DecidableEq, Repr

/-- MajorVersion of src/class_file_version.rs (rsjvm crate); its last
variant is JavaSE_22. -/
inductive MajorVersion where
  | JavaSE_1_1
  | JavaSE_1_2
  | JavaSE_1_3
  | JavaSE_1_4
  | JavaSE_5_0
  | JavaSE_6
  | JavaSE_7
  | JavaSE_8
  | JavaSE_9
  | JavaSE_10
  | JavaSE_11
  | JavaSE_12
  | JavaSE_13
  | JavaSE_14
  | JavaSE_15
  | JavaSE_16
  | JavaSE_17
  | JavaSE_18
  | JavaSE_19
  | JavaSE_20
  | JavaSE_21
  | JavaSE_22
deriving DecidableEq, Repr

/-- Discriminant order of the variants; the derived Rust Ord compares by it. -/
def MajorVersion.idx : MajorVersion → Nat
  | .JavaSE_1_1 => 0
  | .JavaSE_1_2 => 1
  | .JavaSE_1_3 => 2
  | .JavaSE_1_4 => 3
  | .JavaSE_5_0 => 4
  | .JavaSE_6 => 5
  | .JavaSE_7 => 6
  | .JavaSE_8 => 7
  | .JavaSE_9 => 8
  | .JavaSE_10 => 9
  | .JavaSE_11 => 10
  | .JavaSE_12 => 11
  | .JavaSE_13 => 12
  | .JavaSE_14 => 13
  | .JavaSE_15 => 14
  | .JavaSE_16 => 15
  | .JavaSE_17 => 16
  | .JavaSE_18 => 17
  | .JavaSE_19 => 18
  | .JavaSE_20 => 19
  | .JavaSE_21 => 20
  | .JavaSE_22 => 21

/-- MajorVersion::try_from of the rsjvm crate: match arms for 45 through 66,
otherwise UnsupportedMajorVersion. -/
def MajorVersion.tryFrom (value : Nat) : Except FileVersionError MajorVersion :=
  if value = 45 then .ok .JavaSE_1_1
  else if value = 46 then .ok .JavaSE_1_2
  else if value = 47 then .ok .JavaSE_1_3
  else if value = 48 then .ok .JavaSE_1_4
  else if value = 49 then .ok .JavaSE_5_0
  else if value = 50 then .ok .JavaSE_6
  else if value = 51 then .ok .JavaSE_7
  else if value = 52 then .ok .JavaSE_8
  else if value = 53 then .ok .JavaSE_9
  else if value = 54 then .ok .JavaSE_10
  else if value = 55 then .ok .JavaSE_11
  else if value = 56 then .ok .JavaSE_12
  else if value = 57 then .ok .JavaSE_13
  else if value = 58 then .ok .JavaSE_14
  else if value = 59 then .ok .JavaSE_15
  else if value = 60 then .ok .JavaSE_16
  else if value = 61 then .ok .JavaSE_17
  else if value = 62 then .ok .JavaSE_18
  else if value = 63 then .ok .JavaSE_19
  else if value = 64 then .ok .JavaSE_20
  else if value = 65 then .ok .JavaSE_21
  else if value = 66 then .ok .JavaSE_22
  else .error (.UnsupportedMajorVersion value)

/-- ClassFileVersion of the rsjvm crate. -/
structure ClassFileVersion where
  major : MajorVersion
  minor : Nat
deriving DecidableEq, Repr

/-- ClassFileVersion::from of the rsjvm crate: reject when
major_version > JavaSE_11 and minor is neither 0 nor 65535. -/
def ClassFileVersion.from' (major minor : Nat) :
    Except FileVersionError ClassFileVersion := do
  let major_version ← MajorVersion.tryFrom major
  if major_version.idx > MajorVersion.JavaSE_11.idx ∧ minor ≠ 0 ∧ minor ≠ 65535 then
    .error (.UnsupportedMinorVersion major minor)
  else
    .ok ⟨major_version, minor⟩

end Rsjvm

namespace ClassReader

/-- Errors of class-reader/src/class_file_version.rs. -/
inductive FileVersionError where
  | UnsupportedMajorVersion (v : Nat)
  | UnsupportedMinorVersion (major minor : Nat)
deriving DecidableEq, Repr

/-- MajorVersion of class-reader/src/class_file_version.rs; it adds
JavaSE_23. -/
inductive MajorVersion where
  | JavaSE_1_1
  | JavaSE_1_2
  | JavaSE_1_3
  | JavaSE_1_4
  | JavaSE_5_0
  | JavaSE_6
  | JavaSE_7
  | JavaSE_8
  | JavaSE_9
  | JavaSE_10
  | JavaSE_11
  | JavaSE_12
  | JavaSE_13
  | JavaSE_14
  | JavaSE_15
  | JavaSE_16
  | JavaSE_17
  | JavaSE_18
  | JavaSE_19
  | JavaSE_20
  | JavaSE_21
  | JavaSE_22
  | JavaSE_23
deriving DecidableEq, Repr

/-- Discriminant order of the variants; the derived Rust Ord compares by it. -/
def MajorVersion.idx : MajorVersion → Nat
  | .JavaSE_1_1 => 0
  | .JavaSE_1_2 => 1
  | .JavaSE_1_3 => 2
  | .JavaSE_1_4 => 3
  | .JavaSE_5_0 => 4
  | .JavaSE_6 => 5
  | .JavaSE_7 => 6
  | .JavaSE_8 => 7
  | .JavaSE_9 => 8
  | .JavaSE_10 => 9
  | .JavaSE_11 => 10
  | .JavaSE_12 => 11
  | .JavaSE_13 => 12
  | .JavaSE_14 => 13
  | .JavaSE_15 => 14
  | .JavaSE_16 => 15
  | .JavaSE_17 => 16
  | .JavaSE_18 => 17
  | .JavaSE_19 => 18
  | .JavaSE_20 => 19
  | .JavaSE_21 => 20
  | .JavaSE_22 => 21
  | .JavaSE_23 => 22

/-- MajorVersion::try_from of the class-reader crate: match arms for 45
through 67, otherwise UnsupportedMajorVersion. -/
def MajorVersion.tryFrom (value : Nat) : Except FileVersionError MajorVersion :=
  if value = 45 then .ok .JavaSE_1_1
  else if value = 46 then .ok .JavaSE_1_2
  else if value = 47 then .ok .JavaSE_1_3
  else if value = 48 then .ok .JavaSE_1_4
  else if value = 49 then .ok .JavaSE_5_0
  else if value = 50 then .ok .JavaSE_6
  else if value = 51 then .ok .JavaSE_7
  else if value = 52 then .ok .JavaSE_8
  else if value = 53 then .ok .JavaSE_9
  else if value = 54 then .ok .JavaSE_10
  else if value = 55 then .ok .JavaSE_11
  else if value = 56 then .ok .JavaSE_12
  else if value = 57 then .ok .JavaSE_13
  else if value = 58 then .ok .JavaSE_14
  else if value = 59 then .ok .JavaSE_15
  else if value = 60 then .ok .JavaSE_16
  else if value = 61 then .ok .JavaSE_17
  else if value = 62 then .ok .JavaSE_18
  else if value = 63 then .ok .JavaSE_19
  else if value = 64 then .ok .JavaSE_20
  else if value = 65 then .ok .JavaSE_21
  else if value = 66 then .ok .JavaSE_22
  else if value = 67 then .ok .JavaSE_23
  else .error (.UnsupportedMajorVersion value)

/-- ClassFileVersion of the class-reader crate. -/
structure ClassFileVersion where
  major : MajorVersion
  minor : Nat
deriving DecidableEq, Repr

/-- ClassFileVersion::from of the class-reader crate, with its three-part
is_invalid_minor predicate (Rust precedence groups each conjunction before
the disjunctions). -/
def ClassFileVersion.from' (major minor : Nat) :
    Except FileVersionError ClassFileVersion := do
  let major_version ← MajorVersion.tryFrom major
  let is_invalid_minor :=
    (major_version = MajorVersion.JavaSE_1_1 ∧ minor ≥ 3)
    ∨ (major_version.idx < MajorVersion.JavaSE_12.idx ∧ minor ≠ 0)
    ∨ (minor ≠ 0 ∧ minor ≠ 65535)
  if is_invalid_minor then
    .error (.UnsupportedMinorVersion major minor)
  else
    .ok ⟨major_version, minor⟩

end ClassReader

/-- Errors of src/field.rs. -/
inductive FieldError where
  | UnexpectedEnd
  | NoSemicolon
  | InvalidDescriptor
deriving DecidableEq, Repr

/-- BaseType of src/field.rs. -/
inductive BaseType where
  | Byte
  | Char
  | Double
  | Float
  | Int
  | Long
  | Short
  | Boolean
deriving DecidableEq, Repr

/-- FieldType of src/field.rs. -/
inductive FieldType where
  | Base (b : BaseType)
  | Object (name : String)
  | Array (element : FieldType)
deriving DecidableEq, Repr

/-- FieldType::try_from of src/field.rs over the remaining character stream.
The L arm collects characters with next_if(ch != semicolon), which is
takeWhile, and then requires one more character (the semicolon) to remain. -/
def FieldType.tryFrom : List Char → Except FieldError (FieldType × List Char)
  | [] => .error .UnexpectedEnd
  | ch :: rest =>
    match ch with
    | 'B' => .ok (.Base .Byte, rest)
    | 'C' => .ok (.Base .Char, rest)
    | 'D' => .ok (.Base .Double, rest)
    | 'F' => .ok (.Base .Float, rest)
    | 'I' => .ok (.Base .Int, rest)
    | 'J' => .ok (.Base .Long, rest)
    | 'S' => .ok (.Base .Short, rest)
    | 'Z' => .ok (.Base .Boolean, rest)
    | 'L' =>
      let class_name := rest.takeWhile (fun c => c != ';')
      match rest.dropWhile (fun c => c != ';') with
      | _ :: after => .ok (.Object (String.mk class_name), after)
      | [] => .error .NoSemicolon
    | '[' =>
      match FieldType.tryFrom rest with
      | .ok (element_type, rem) => .ok (.Array element_type, rem)
      | .error e => .error e
    | _ => .error .InvalidDescriptor

/-- Errors of src/method.rs (the FieldError arm delegates). -/
inductive MethodParsingError where
  | NoOpeningBracket
  | NoClosingBracket
  | FieldError (e : FieldError)
deriving DecidableEq, Repr

/-- AccessFlag of src/access_flag.rs (class-level flags; renamed here to
avoid clashing with the field-level enum of the same Rust name). -/
inductive ClassAccessFlag where
  | Public
  | Final
  | Super
  | Interface
  | Abstract
  | Synthetic
  | Annotation
  | Enum
  | Module
deriving DecidableEq, Repr

/-- Bit value each class flag is decoded from (the masks tested in
ClassFileAccessFlags::new). -/
def ClassAccessFlag.bit : ClassAccessFlag → Nat
  | .Public => 0x0001
  | .Final => 0x0010
  | .Super => 0x0020
  | .Interface => 0x0200
  | .Abstract => 0x0400
  | .Synthetic => 0x1000
  | ClassAccessFlag.Annotation => 0x2000
  | .Enum => 0x4000
  | .Module => 0x8000

/-- ClassFileAccessFlags::new of src/access_flag.rs: sequential conditional
pushes, modelled as concatenation in the same order. -/
def ClassFileAccessFlags.new (mask : Nat) : List ClassAccessFlag :=
  (if mask &&& 0x0001 ≠ 0 then [.Public] else [])
  ++ (if mask &&& 0x0010 ≠ 0 then [.Final] else [])
  ++ (if mask &&& 0x0020 ≠ 0 then [.Super] else [])
  ++ (if mask &&& 0x0200 ≠ 0 then [.Interface] else [])
  ++ (if mask &&& 0x0400 ≠ 0 then [.Abstract] else [])
  ++ (if mask &&& 0x1000 ≠ 0 then [.Synthetic] else [])
  ++ (if mask &&& 0x2000 ≠ 0 then [ClassAccessFlag.Annotation] else [])
  ++ (if mask &&& 0x4000 ≠ 0 then [.Enum] else [])
  ++ (if mask &&& 0x8000 ≠ 0 then [.Module] else [])

/-- AccessFlag of src/field.rs (field-level flags; renamed here to avoid
clashing with the class-level enum of the same Rust name). -/
inductive FieldAccessFlag where
  | Public
  | Private
  | Protected
  | Static
  | Final
  | Volatile
  | Transient
  | Synthetic
  | Enum
deriving DecidableEq, Repr

/-- Bit value each field flag is decoded from (the masks tested in
FieldAccessFlags::new). -/
def FieldAccessFlag.bit : FieldAccessFlag → Nat
  | .Public => 0x0001
  | .Private => 0x0002
  | .Protected => 0x0004
  | .Static => 0x0008
  | .Final => 0x0010
  | .Volatile => 0x0040
  | .Transient => 0x0080
  | .Synthetic => 0x1000
  | .Enum => 0x4000

/-- FieldAccessFlags::new of src/field.rs. -/
def FieldAccessFlags.new (mask : Nat) : List FieldAccessFlag :=
  (if mask &&& 0x0001 ≠ 0 then [.Public] else [])
  ++ (if mask &&& 0x0002 ≠ 0 then [.Private] else [])
  ++ (if mask &&& 0x0004 ≠ 0 then [.Protected] else [])
  ++ (if mask &&& 0x0008 ≠ 0 then [.Static] else [])
  ++ (if mask &&& 0x0010 ≠ 0 then [.Final] else [])
  ++ (if mask &&& 0x0040 ≠ 0 then [.Volatile] else [])
  ++ (if mask &&& 0x0080 ≠ 0 then [.Transient] else [])
  ++ (if mask &&& 0x1000 ≠ 0 then [.Synthetic] else [])
  ++ (if mask &&& 0x4000 ≠ 0 then [.Enum] else [])

/-- MethodFlag of src/method.rs. -/
inductive MethodFlag where
  | Public
  | Private
  | Protected
  | Static
  | Final
  | Synchronized
  | Bridge
  | Varargs
  | Native
  | Abstract
  | Strict
  | Synthetic
deriving DecidableEq, Repr

/-- Bit value each method flag is decoded from (the masks tested in
MethodAccessFlags::new). -/
def MethodFlag.bit : MethodFlag → Nat
  | .Public => 0x0001
  | .Private => 0x0002
  | .Protected => 0x0004
  | .Static => 0x0008
  | .Final => 0x0010
  | .Synchronized => 0x0020
  | .Bridge => 0x0040
  | .Varargs => 0x0080
  | .Native => 0x0100
  | .Abstract => 0x0400
  | .Strict => 0x0800
  | .Synthetic => 0x1000

/-- MethodAccessFlags::new of src/method.rs. -/
def MethodAccessFlags.new (mask : Nat) : List MethodFlag :=
  (if mask &&& 0x0001 ≠ 0 then [.Public] else [])
  ++ (if mask &&& 0x0002 ≠ 0 then [.Private] else [])
  ++ (if mask &&& 0x0004 ≠ 0 then [.Protected] else [])
  ++ (if mask &&& 0x0008 ≠ 0 then [.Static] else [])
  ++ (if mask &&& 0x0010 ≠ 0 then [.Final] else [])
  ++ (if mask &&& 0x0020 ≠ 0 then [.Synchronized] else [])
  ++ (if mask &&& 0x0040 ≠ 0 then [.Bridge] else [])
  ++ (if mask &&& 0x0080 ≠ 0 then [.Varargs] else [])
  ++ (if mask &&& 0x0100 ≠ 0 then [.Native] else [])
  ++ (if mask &&& 0x0400 ≠ 0 then [.Abstract] else [])
  ++ (if mask &&& 0x0800 ≠ 0 then [.Strict] else [])
  ++ (if mask &&& 0x1000 ≠ 0 then [.Synthetic] else [])

/-- Bitwise OR of the bit values of a decoded flag list (the reference
encoding used to state the round-trip property). -/
def orOfClassFlags (l : List ClassAccessFlag) : Nat :=
  l.foldr (fun f acc => f.bit ||| acc) 0

/-- Bitwise OR of the bit values of a decoded field flag list. -/
def orOfFieldFlags (l : List FieldAccessFlag) : Nat :=
  l.foldr (fun f acc => f.bit ||| acc) 0

/-- Bitwise OR of the bit values of a decoded method flag list. -/
def orOfMethodFlags (l : List MethodFlag) : Nat :=
  l.foldr (fun f acc => f.bit ||| acc) 0

/-- ClassReaderError of src/class_file_reader.rs, as declared there. -/
inductive ClassReaderError where
  | InvalidMagicNumber (n : Nat)
  | TagNotSupported (tag : Nat)
  | UnexpectedConstant (expected actual : String)
  | MismatchedConstantType (ft : FieldType) (idx : Nat)
  | InvalidAttributeSize (actual expected : Nat)
  | InvalidVerificationType (tag : Nat)
  | InvalidStackMapFrameType (t : Nat)
  | InvalidSourceFileString (s : String)
  | ReadError (e : ReadError)
  | FileVersionError (e : Rsjvm.FileVersionError)
  | ConstantPoolError (e : ConstantPoolError)
  | FieldError (e : FieldError)
  | MethodParsingError (e : MethodParsingError)
deriving DecidableEq, Repr

/-- Result of running a Rust function that returns Result but may also hit a
panic or an unfinished todo arm; panicked carries the panic message. -/
inductive Outcome (α : Type) where
  | ok (a : α)
  | err (e : ClassReaderError)
  | panicked (msg : String)
deriving DecidableEq, Repr

/-- Monadic bind for Outcome (the ? operator plus panic propagation). -/
def Outcome.bind {α β : Type} : Outcome α → (α → Outcome β) → Outcome β
  | .ok a, f => f a
  | .err e, _ => .err e
  | .panicked m, _ => .panicked m

instance : Monad Outcome where
  pure := .ok
  bind := Outcome.bind

/-- Lift a ByteReader result into Outcome, wrapping the error (the #[from]
conversion applied by the ? operator). -/
def liftRead {α : Type} : Except ReadError (α × ByteReader) → Outcome (α × ByteReader)
  | .ok v => .ok v
  | .error e => .err (.ReadError e)

/-- Modelled from the spec: read_pair_u16 is called by the reader but absent
from src/byte_reader.rs; the spec's (u16,u16) entry layouts imply two
consecutive big-endian u16 reads. -/
def ByteReader.read_pair_u16 (r : ByteReader) :
    Except ReadError ((Nat × Nat) × ByteReader) := do
  let (a, r) ← r.read_u16
  let (b, r) ← r.read_u16
  .ok ((a, b), r)

/-- Instruction enum of the class-reader crate (instruction.rs is not under
src/; the variants and operand arities are exactly those constructed by
ClassFileReader::read_instruction).  u8/u16 operands are Nat, i8/i16 are Int. -/
inductive Instruction where
  | Aaload
  | Aastore
  | Aconst_null
  | Aload (idx : Nat)
  | Aload_0
  | Aload_1
  | Aload_2
  | Aload_3
  | Anewarray (idx : Nat)
  | Areturn
  | Arraylength
  | Astore (idx : Nat)
  | Astore_0
  | Astore_1
  | Astore_2
  | Astore_3
  | Athrow
  | Baload
  | Bastore
  | Bipush (v : Nat)
  | Caload
  | Castore
  | Checkcast (idx : Nat)
  | D2f
  | D2i
  | D2l
  | Dadd
  | Daload
  | Dastore
  | Dcmpg
  | Dcmpl
  | Dconst_0
  | Dconst_1
  | Ddiv
  | Dload (idx : Nat)
  | Dload_0
  | Dload_1
  | Dload_2
  | Dload_3
  | Dmul
  | Dneg
  | Drem
  | Dreturn
  | Dstore (idx : Nat)
  | Dstore_0
  | Dstore_1
  | Dstore_2
  | Dstore_3
  | Dsub
  | Dup
  | Dup_x1
  | Dup_x2
  | Dup_2
  | Dup2_x1
  | Dup2_x2
  | F2d
  | F2i
  | F2l
  | Fadd
  | Faload
  | Fastore
  | Fcmpg
  | Fcmpl
  | Fconst_0
  | Fconst_1
  | Fconst_2
  | Fdiv
  | Fload (idx : Nat)
  | Fload_0
  | Fload_1
  | Fload_2
  | Fload_3
  | Fmul
  | Fneg
  | Frem
  | Freturn
  | Fstore (idx : Nat)
  | Fstore_0
  | Fstore_1
  | Fstore_2
  | Fstore_3
  | Fsub
  | Getfield (idx : Nat)
  | Getstatic (idx : Nat)
  | I2b
  | I2c
  | I2d
  | I2f
  | I2l
  | I2s
  | Iadd
  | Iaload
  | Iand
  | Iastore
  | Iconst_m1
  | Iconst_0
  | Iconst_1
  | Iconst_2
  | Iconst_3
  | Iconst_4
  | Iconst_5
  | Idiv
  | If_acmpeq (off : Nat)
  | If_acmpne (off : Nat)
  | If_icmpeq (off : Nat)
  | If_icmpne (off : Nat)
  | If_icmplt (off : Nat)
  | If_icmpge (off : Nat)
  | If_icmpgt (off : Nat)
  | If_icmple (off : Nat)
  | Ifeq (off : Nat)
  | Ifne (off : Nat)
  | Iflt (off : Nat)
  | Ifge (off : Nat)
  | Ifgt (off : Nat)
  | Ifle (off : Nat)
  | Ifnonnull (off : Nat)
  | Ifnull (off : Nat)
  | Iinc (idx : Nat) (delta : Int)
  | Iload (idx : Nat)
  | Iload_0
  | Iload_1
  | Iload_2
  | Iload_3
  | Imul
  | Ineg
  | Instanceof (idx : Nat)
  | Invokedynamic (idx : Nat)
  | Invokespecial (idx : Nat)
  | Invokestatic (idx : Nat)
  | Invokevirtual (idx : Nat)
  | Ior
  | Irem
  | Ireturn
  | Ishl
  | Ishr
  | Istore (idx : Nat)
  | Istore_0
  | Istore_1
  | Istore_2
  | Istore_3
  | Isub
  | Iushr
  | Ixor
  | L2d
  | L2f
  | L2i
  | Ladd
  | Laload
  | Land
  | Lastore
  | Lcmp
  | Lconst_0
  | Lconst_1
  | Ldc (idx : Nat)
  | Ldc_w (idx : Nat)
  | Ldc2_w (idx : Nat)
  | Ldiv
  | Lload (idx : Nat)
  | Lload_0
  | Lload_1
  | Lload_2
  | Lload_3
  | Lmul
  | Lneg
  | Lor
  | Lrem
  | Lreturn
  | Lshl
  | Lshr
  | Lstore (idx : Nat)
  | Lstore_0
  | Lstore_1
  | Lstore_2
  | Lstore_3
  | Lsub
  | Lushr
  | Lxor
  | Monitorenter
  | Monitorexit
  | Multianewarray (idx : Nat) (dims : Nat)
  | New (idx : Nat)
  | Nop
  | Pop
  | Pop2
  | Putfield (idx : Nat)
  | Putstatic (idx : Nat)
  | Ret (idx : Nat)
  | Return
  | Saload
  | Sastore
  | Sipush (v : Int)
  | Swap

/-- State threaded through read_instruction: the &mut byte_reader and the
&mut u32 address counter. -/
structure DecodeState where
  reader : ByteReader
  address : Nat
deriving DecidableEq, Repr

/-- ClassFileReader::read_instruction_u8: increments the address counter and
then reads one byte from the byte reader. -/
def readInstructionU8 (st : DecodeState) : Outcome (Nat × DecodeState) :=
  let st := { st with address := st.address + 1 }
  match st.reader.read_u8 with
  | .ok (v, r) => .ok (v, { st with reader := r })
  | .error e => .err (.ReadError e)

/-- ClassFileReader::read_instruction_u16: two counted byte reads combined
big-endian. -/
def readInstructionU16 (st : DecodeState) : Outcome (Nat × DecodeState) := do
  let (index_byte1, st) ← readInstructionU8 st
  let (index_byte2, st) ← readInstructionU8 st
  .ok ((index_byte1 <<< 8) ||| index_byte2, st)

/-- ClassFileReader::read_instruction_i8. -/
def readInstructionI8 (st : DecodeState) : Outcome (Int × DecodeState) := do
  let (byte, st) ← readInstructionU8 st
  .ok (toSigned 8 byte, st)

/-- ClassFileReader::read_instruction_i16. -/
def readInstructionI16 (st : DecodeState) : Outcome (Int × DecodeState) := do
  let (value, st) ← readInstructionU16 st
  .ok (toSigned 16 value, st)

/-- The self.byte_reader.read_u16()? calls used for branch offsets: they go
straight to the byte reader, without touching the address counter. -/
def readBranchU16 (st : DecodeState) : Outcome (Nat × DecodeState) :=
  match st.reader.read_u16 with
  | .ok (v, r) => .ok (v, { st with reader := r })
  | .error e => .err (.ReadError e)

set_option maxHeartbeats 1000000 in
/-- ClassFileReader::read_instruction of src/class_file_reader.rs.  The
current address is captured, the counter is incremented for the opcode byte,
and the opcode is dispatched.  Arms written todo! in the source and the
default arm (panic! "at the disco") are modelled as panicked outcomes
carrying the message argument. -/
def readInstruction (index : Nat) (st : DecodeState) :
    Outcome ((Instruction × Nat) × DecodeState) :=
  let current_address := st.address
  let st := { st with address := st.address + 1 }
  match index with
  | 0x32 => .ok ((.Aaload, current_address), st)
  | 0x53 => .ok ((.Aastore, current_address), st)
  | 0x01 => .ok ((.Aconst_null, current_address), st)
  | 0x19 => do let (v, st) ← readInstructionU8 st; .ok ((.Aload v, current_address), st)
  | 0x2a => .ok ((.Aload_0, current_address), st)
  | 0x2b => .ok ((.Aload_1, current_address), st)
  | 0x2c => .ok ((.Aload_2, current_address), st)
  | 0x2d => .ok ((.Aload_3, current_address), st)
  | 0xbd => do let (v, st) ← readInstructionU16 st; .ok ((.Anewarray v, current_address), st)
  | 0xb0 => .ok ((.Areturn, current_address), st)
  | 0xbe => .ok ((.Arraylength, current_address), st)
  | 0x3a => do let (v, st) ← readInstructionU8 st; .ok ((.Astore v, current_address), st)
  | 0x4b => .ok ((.Astore_0, current_address), st)
  | 0x4c => .ok ((.Astore_1, current_address), st)
  | 0x4d => .ok ((.Astore_2, current_address), st)
  | 0x4e => .ok ((.Astore_3, current_address), st)
  | 0xbf => .ok ((.Athrow, current_address), st)
  | 0x33 => .ok ((.Baload, current_address), st)
  | 0x54 => .ok ((.Bastore, current_address), st)
  | 0x10 => do let (v, st) ← readInstructionU8 st; .ok ((.Bipush v, current_address), st)
  | 0x34 => .ok ((.Caload, current_address), st)
  | 0x55 => .ok ((.Castore, current_address), st)
  | 0xc0 => do let (v, st) ← readInstructionU16 st; .ok ((.Checkcast v, current_address), st)
  | 0x90 => .ok ((.D2f, current_address), st)
  | 0x8e => .ok ((.D2i, current_address), st)
  | 0x8f => .ok ((.D2l, current_address), st)
  | 0x63 => .ok ((.Dadd, current_address), st)
  | 0x31 => .ok ((.Daload, current_address), st)
  | 0x52 => .ok ((.Dastore, current_address), st)
  | 0x98 => .ok ((.Dcmpg, current_address), st)
  | 0x97 => .ok ((.Dcmpl, current_address), st)
  | 0x0e => .ok ((.Dconst_0, current_address), st)
  | 0x0f => .ok ((.Dconst_1, current_address), st)
  | 0x6f => .ok ((.Ddiv, current_address), st)
  | 0x18 => do let (v, st) ← readInstructionU8 st; .ok ((.Dload v, current_address), st)
  | 0x26 => .ok ((.Dload_0, current_address), st)
  | 0x27 => .ok ((.Dload_1, current_address), st)
  | 0x28 => .ok ((.Dload_2, current_address), st)
  | 0x29 => .ok ((.Dload_3, current_address), st)
  | 0x6b => .ok ((.Dmul, current_address), st)
  | 0x77 => .ok ((.Dneg, current_address), st)
  | 0x73 => .ok ((.Drem, current_address), st)
  | 0xaf => .ok ((.Dreturn, current_address), st)
  | 0x39 => do let (v, st) ← readInstructionU8 st; .ok ((.Dstore v, current_address), st)
  | 0x47 => .ok ((.Dstore_0, current_address), st)
  | 0x48 => .ok ((.Dstore_1, current_address), st)
  | 0x49 => .ok ((.Dstore_2, current_address), st)
  | 0x4a => .ok ((.Dstore_3, current_address), st)
  | 0x67 => .ok ((.Dsub, current_address), st)
  | 0x59 => .ok ((.Dup, current_address), st)
  | 0x5a => .ok ((.Dup_x1, current_address), st)
  | 0x5b => .ok ((.Dup_x2, current_address), st)
  | 0x5c => .ok ((.Dup_2, current_address), st)
  | 0x5d => .ok ((.Dup2_x1, current_address), st)
  | 0x5e => .ok ((.Dup2_x2, current_address), st)
  | 0x8d => .ok ((.F2d, current_address), st)
  | 0x8b => .ok ((.F2i, current_address), st)
  | 0x8c => .ok ((.F2l, current_address), st)
  | 0x62 => .ok ((.Fadd, current_address), st)
  | 0x30 => .ok ((.Faload, current_address), st)
  | 0x51 => .ok ((.Fastore, current_address), st)
  | 0x96 => .ok ((.Fcmpg, current_address), st)
  | 0x95 => .ok ((.Fcmpl, current_address), st)
  | 0x0b => .ok ((.Fconst_0, current_address), st)
  | 0x0c => .ok ((.Fconst_1, current_address), st)
  | 0x0d => .ok ((.Fconst_2, current_address), st)
  | 0x6e => .ok ((.Fdiv, current_address), st)
  | 0x17 => do let (v, st) ← readInstructionU8 st; .ok ((.Fload v, current_address), st)
  | 0x22 => .ok ((.Fload_0, current_address), st)
  | 0x23 => .ok ((.Fload_1, current_address), st)
  | 0x24 => .ok ((.Fload_2, current_address), st)
  | 0x25 => .ok ((.Fload_3, current_address), st)
  | 0x6a => .ok ((.Fmul, current_address), st)
  | 0x76 => .ok ((.Fneg, current_address), st)
  | 0x72 => .ok ((.Frem, current_address), st)
  | 0xae => .ok ((.Freturn, current_address), st)
  | 0x38 => do let (v, st) ← readInstructionU8 st; .ok ((.Fstore v, current_address), st)
  | 0x43 => .ok ((.Fstore_0, current_address), st)
  | 0x44 => .ok ((.Fstore_1, current_address), st)
  | 0x45 => .ok ((.Fstore_2, current_address), st)
  | 0x46 => .ok ((.Fstore_3, current_address), st)
  | 0x66 => .ok ((.Fsub, current_address), st)
  | 0xb4 => do let (v, st) ← readInstructionU16 st; .ok ((.Getfield v, current_address), st)
  | 0xb2 => do let (v, st) ← readInstructionU16 st; .ok ((.Getstatic v, current_address), st)
  | 0xa7 => .panicked "Goto"
  | 0xc8 => .panicked "Goto_w"
  | 0x91 => .ok ((.I2b, current_address), st)
  | 0x92 => .ok ((.I2c, current_address), st)
  | 0x87 => .ok ((.I2d, current_address), st)
  | 0x86 => .ok ((.I2f, current_address), st)
  | 0x85 => .ok ((.I2l, current_address), st)
  | 0x93 => .ok ((.I2s, current_address), st)
  | 0x60 => .ok ((.Iadd, current_address), st)
  | 0x2e => .ok ((.Iaload, current_address), st)
  | 0x7e => .ok ((.Iand, current_address), st)
  | 0x4f => .ok ((.Iastore, current_address), st)
  | 0x02 => .ok ((.Iconst_m1, current_address), st)
  | 0x03 => .ok ((.Iconst_0, current_address), st)
  | 0x04 => .ok ((.Iconst_1, current_address), st)
  | 0x05 => .ok ((.Iconst_2, current_address), st)
  | 0x06 => .ok ((.Iconst_3, current_address), st)
  | 0x07 => .ok ((.Iconst_4, current_address), st)
  | 0x08 => .ok ((.Iconst_5, current_address), st)
  | 0x6c => .ok ((.Idiv, current_address), st)
  | 0xa5 => do let (v, st) ← readBranchU16 st; .ok ((.If_acmpeq v, current_address), st)
  | 0xa6 => do let (v, st) ← readBranchU16 st; .ok ((.If_acmpne v, current_address), st)
  | 0x9f => do let (v, st) ← readBranchU16 st; .ok ((.If_icmpeq v, current_address), st)
  | 0xa0 => do let (v, st) ← readBranchU16 st; .ok ((.If_icmpne v, current_address), st)
  | 0xa1 => do let (v, st) ← readBranchU16 st; .ok ((.If_icmplt v, current_address), st)
  | 0xa2 => do let (v, st) ← readBranchU16 st; .ok ((.If_icmpge v, current_address), st)
  | 0xa3 => do let (v, st) ← readBranchU16 st; .ok ((.If_icmpgt v, current_address), st)
  | 0xa4 => do let (v, st) ← readBranchU16 st; .ok ((.If_icmple v, current_address), st)
  | 0x99 => do let (v, st) ← readBranchU16 st; .ok ((.Ifeq v, current_address), st)
  | 0x9a => do let (v, st) ← readBranchU16 st; .ok ((.Ifne v, current_address), st)
  | 0x9b => do let (v, st) ← readBranchU16 st; .ok ((.Iflt v, current_address), st)
  | 0x9c => do let (v, st) ← readBranchU16 st; .ok ((.Ifge v, current_address), st)
  | 0x9d => do let (v, st) ← readBranchU16 st; .ok ((.Ifgt v, current_address), st)
  | 0x9e => do let (v, st) ← readBranchU16 st; .ok ((.Ifle v, current_address), st)
  | 0xc7 => do let (v, st) ← readBranchU16 st; .ok ((.Ifnonnull v, current_address), st)
  | 0xc6 => do let (v, st) ← readBranchU16 st; .ok ((.Ifnull v, current_address), st)
  | 0x84 => do
    let (a, st) ← readInstructionU8 st
    let (d, st) ← readInstructionI8 st
    .ok ((.Iinc a d, current_address), st)
  | 0x15 => do let (v, st) ← readInstructionU8 st; .ok ((.Iload v, current_address), st)
  | 0x1a => .ok ((.Iload_0, current_address), st)
  | 0x1b => .ok ((.Iload_1, current_address), st)
  | 0x1c => .ok ((.Iload_2, current_address), st)
  | 0x1d => .ok ((.Iload_3, current_address), st)
  | 0x68 => .ok ((.Imul, current_address), st)
  | 0x74 => .ok ((.Ineg, current_address), st)
  | 0xc1 => do let (v, st) ← readInstructionU16 st; .ok ((.Instanceof v, current_address), st)
  | 0xba => do let (v, st) ← readInstructionU16 st; .ok ((.Invokedynamic v, current_address), st)
  | 0xb7 => do let (v, st) ← readInstructionU16 st; .ok ((.Invokespecial v, current_address), st)
  | 0xb8 => do let (v, st) ← readInstructionU16 st; .ok ((.Invokestatic v, current_address), st)
  | 0xb6 => do let (v, st) ← readInstructionU16 st; .ok ((.Invokevirtual v, current_address), st)
  | 0x80 => .ok ((.Ior, current_address), st)
  | 0x70 => .ok ((.Irem, current_address), st)
  | 0xac => .ok ((.Ireturn, current_address), st)
  | 0x78 => .ok ((.Ishl, current_address), st)
  | 0x7a => .ok ((.Ishr, current_address), st)
  | 0x36 => do let (v, st) ← readInstructionU8 st; .ok ((.Istore v, current_address), st)
  | 0x3b => .ok ((.Istore_0, current_address), st)
  | 0x3c => .ok ((.Istore_1, current_address), st)
  | 0x3d => .ok ((.Istore_2, current_address), st)
  | 0x3e => .ok ((.Istore_3, current_address), st)
  | 0x64 => .ok ((.Isub, current_address), st)
  | 0x7c => .ok ((.Iushr, current_address), st)
  | 0x82 => .ok ((.Ixor, current_address), st)
  | 0xa8 => .panicked "Jsr"
  | 0xc9 => .panicked "Jsr_w"
  | 0x8a => .ok ((.L2d, current_address), st)
  | 0x89 => .ok ((.L2f, current_address), st)
  | 0x88 => .ok ((.L2i, current_address), st)
  | 0x61 => .ok ((.Ladd, current_address), st)
  | 0x2f => .ok ((.Laload, current_address), st)
  | 0x7f => .ok ((.Land, current_address), st)
  | 0x50 => .ok ((.Lastore, current_address), st)
  | 0x94 => .ok ((.Lcmp, current_address), st)
  | 0x09 => .ok ((.Lconst_0, current_address), st)
  | 0x0a => .ok ((.Lconst_1, current_address), st)
  | 0x12 => do let (v, st) ← readInstructionU8 st; .ok ((.Ldc v, current_address), st)
  | 0x13 => do let (v, st) ← readInstructionU16 st; .ok ((.Ldc_w v, current_address), st)
  | 0x14 => do let (v, st) ← readInstructionU16 st; .ok ((.Ldc2_w v, current_address), st)
  | 0x6d => .ok ((.Ldiv, current_address), st)
  | 0x16 => do let (v, st) ← readInstructionU8 st; .ok ((.Lload v, current_address), st)
  | 0x1e => .ok ((.Lload_0, current_address), st)
  | 0x1f => .ok ((.Lload_1, current_address), st)
  | 0x20 => .ok ((.Lload_2, current_address), st)
  | 0x21 => .ok ((.Lload_3, current_address), st)
  | 0x69 => .ok ((.Lmul, current_address), st)
  | 0x75 => .ok ((.Lneg, current_address), st)
  | 0xab => .panicked "Lookupswitch"
  | 0x81 => .ok ((.Lor, current_address), st)
  | 0x71 => .ok ((.Lrem, current_address), st)
  | 0xad => .ok ((.Lreturn, current_address), st)
  | 0x79 => .ok ((.Lshl, current_address), st)
  | 0x7b => .ok ((.Lshr, current_address), st)
  | 0x37 => do let (v, st) ← readInstructionU8 st; .ok ((.Lstore v, current_address), st)
  | 0x3f => .ok ((.Lstore_0, current_address), st)
  | 0x40 => .ok ((.Lstore_1, current_address), st)
  | 0x41 => .ok ((.Lstore_2, current_address), st)
  | 0x42 => .ok ((.Lstore_3, current_address), st)
  | 0x65 => .ok ((.Lsub, current_address), st)
  | 0x7d => .ok ((.Lushr, current_address), st)
  | 0x83 => .ok ((.Lxor, current_address), st)
  | 0xc2 => .ok ((.Monitorenter, current_address), st)
  | 0xc3 => .ok ((.Monitorexit, current_address), st)
  | 0xc5 => do
    let (a, st) ← readInstructionU16 st
    let (d, st) ← readInstructionU8 st
    .ok ((.Multianewarray a d, current_address), st)
  | 0xbb => do let (v, st) ← readInstructionU16 st; .ok ((.New v, current_address), st)
  | 0xbc => .panicked "Newarray"
  | 0x00 => .ok ((.Nop, current_address), st)
  | 0x57 => .ok ((.Pop, current_address), st)
  | 0x58 => .ok ((.Pop2, current_address), st)
  | 0xb5 => do let (v, st) ← readInstructionU16 st; .ok ((.Putfield v, current_address), st)
  | 0xb3 => do let (v, st) ← readInstructionU16 st; .ok ((.Putstatic v, current_address), st)
  | 0xa9 => do let (v, st) ← readInstructionU8 st; .ok ((.Ret v, current_address), st)
  | 0xb1 => .ok ((.Return, current_address), st)
  | 0x35 => .ok ((.Saload, current_address), st)
  | 0x56 => .ok ((.Sastore, current_address), st)
  | 0x11 => do let (v, st) ← readInstructionI16 st; .ok ((.Sipush v, current_address), st)
  | 0x5f => .ok ((.Swap, current_address), st)
  | 0xaa => .panicked "Tableswitch"
  | 0xc4 => .panicked "Wide"
  | _ => .panicked "at the disco"

/-- Tag dispatch of ClassFileReader::read_constant_pool together with the
read_*_constant helpers it calls; unknown tags give TagNotSupported. -/
def readTaggedConstant (tag : Nat) (r : ByteReader) : Outcome (Constant × ByteReader) :=
  match tag with
  | 1 => do
    let (length, r) ← liftRead r.read_u16
    let (bytes, r) ← liftRead (r.read_utf8 length)
    .ok (.Utf8 bytes, r)
  | 3 => do let (v, r) ← liftRead r.read_i32; .ok (.Integer v, r)
  | 4 => do let (v, r) ← liftRead r.read_f32; .ok (.Float v, r)
  | 5 => do let (v, r) ← liftRead r.read_i64; .ok (.Long v, r)
  | 6 => do let (v, r) ← liftRead r.read_f64; .ok (.Double v, r)
  | 7 => do let (v, r) ← liftRead r.read_u16; .ok (.ClassIndex v, r)
  | 8 => do let (v, r) ← liftRead r.read_u16; .ok (.StringIndex v, r)
  | 9 => do let (p, r) ← liftRead r.read_pair_u16; .ok (.FieldRef p.1 p.2, r)
  | 10 => do let (p, r) ← liftRead r.read_pair_u16; .ok (.MethodRef p.1 p.2, r)
  | 11 => do let (p, r) ← liftRead r.read_pair_u16; .ok (.InterfaceMethodRef p.1 p.2, r)
  | 12 => do let (p, r) ← liftRead r.read_pair_u16; .ok (.NameAndType p.1 p.2, r)
  | 15 => do
    let (kind, r) ← liftRead r.read_u8
    let (idx, r) ← liftRead r.read_u16
    .ok (.MethodHandle kind idx, r)
  | 16 => do let (v, r) ← liftRead r.read_u16; .ok (.MethodType v, r)
  | 17 => do let (p, r) ← liftRead r.read_pair_u16; .ok (.Dynamic p.1 p.2, r)
  | 18 => do let (p, r) ← liftRead r.read_pair_u16; .ok (.InvokeDynamic p.1 p.2, r)
  | 19 => do let (v, r) ← liftRead r.read_u16; .ok (.Module v, r)
  | 20 => do let (v, r) ← liftRead r.read_u16; .ok (.Package v, r)
  | _ => .err (.TagNotSupported tag)

/-- Loop body sequence of ClassFileReader::read_constant_pool over the range
1..constant_pool_count.  Each iteration reads one tag byte, decodes one
tagged constant, and adds it to the pool; the source then adds one to the
loop variable for a wide entry, which in Rust does not change which range
elements the for-loop visits, so it is a dead local here as well.  The list
of decoded constants is also accumulated so the iteration count is
observable. -/
def readConstantPoolLoop : List Nat → ByteReader → ConstantPool → List Constant →
    Outcome (ByteReader × ConstantPool × List Constant)
  | [], r, pool, acc => .ok (r, pool, acc)
  | i :: rest, r, pool, acc => do
    let (tag, r) ← liftRead r.read_u8
    let (constant, r) ← readTaggedConstant tag r
    let pool := pool.add constant
    let _index := if constant.isWideEntry then i + 1 else i
    readConstantPoolLoop rest r pool (acc ++ [constant])

/-- ClassFileReader::read_constant_pool: read the u16 count, then run the
loop over 1..count starting from the default (empty) pool. -/
def readConstantPool (r : ByteReader) :
    Outcome (ByteReader × ConstantPool × List Constant) := do
  let (constant_pool_count, r) ← liftRead r.read_u16
  readConstantPoolLoop (List.range' 1 (constant_pool_count - 1)) r ConstantPool.empty []

/-- Modelled from the spec: section 4.6 gives every conditional branch
opcode (ifeq through ifle, the if_icmp and if_acmp families, ifnull,
ifnonnull) an encoding of one opcode byte plus one signed 16-bit offset,
three bytes in all, and says the PC advances by the encoded length. -/
def specBranchInstructionLength : Nat := 3

/-- C1: contrary to the claim, the cursor's offset never advances.  read_u8
on the input [1, 2] returns the byte 1 together with an unchanged reader
(pos still 0), so the immediately following read_u8 is the identical call on
the identical state and returns 1 again instead of 2; read_u16 and
read_bytes also leave pos at 0.  This evaluates the embedded source at the
claim's failing input. -/
theorem byteReader_offset_never_advances :
    (ByteReader.new [1, 2]).read_u8 = .ok (1, ByteReader.new [1, 2])
    ∧ (ByteReader.new [1, 2]).read_u16 = .ok (258, ByteReader.new [1, 2])
    ∧ (ByteReader.new [1, 2]).read_bytes 2 = .ok ([1, 2], ByteReader.new [1, 2])
    ∧ (ByteReader.new [1, 2]).pos = 0 :=
  ⟨rfl, rfl, rfl, rfl⟩

/-- C2: contrary to the claim, ConstantPool::get indexes the stored Vec
directly, hence 0-based.  For the pool built by adding Long(5) then
Integer(7) the stored sequence is [Long 5, Unsuable, Integer 7]; get 2
returns Integer 7 (the claim says UnusableConstant 2), get 3 is
IndexOutOfBounds (the claim says it returns Integer 7), and index 0 is
valid, returning Long 5. -/
theorem constantPool_get_is_zero_based :
    ((ConstantPool.empty.add (.Long 5)).add (.Integer 7)).constants
      = [.Long 5, .Unsuable, .Integer 7]
    ∧ ((ConstantPool.empty.add (.Long 5)).add (.Integer 7)).get 2 = .ok (.Integer 7)
    ∧ ((ConstantPool.empty.add (.Long 5)).add (.Integer 7)).get 3
        = .error (.IndexOutOfBounds 3)
    ∧ ((ConstantPool.empty.add (.Long 5)).add (.Integer 7)).get 0 = .ok (.Long 5)
    ∧ ((ConstantPool.empty.add (.Long 5)).add (.Integer 7)).get 1
        = .error (.UnsuableConstant 1) :=
  ⟨rfl, rfl, rfl, rfl, rfl⟩

/-- C3: contrary to the claim, the class-reader crate rejects minor 1 and 2
for major 45 (its unconditional minor-check disjuncts override the
dedicated minor-below-3 conjunct for major 45), while the rsjvm crate
accepts every minor for majors below 56 (here 46 with minor 7).  Both
evaluations run the embedded sources at the failing inputs. -/
theorem classFileVersion_minor_policy_divergence :
    ClassReader.ClassFileVersion.from' 45 1 = .error (.UnsupportedMinorVersion 45 1)
    ∧ ClassReader.ClassFileVersion.from' 45 2 = .error (.UnsupportedMinorVersion 45 2)
    ∧ ClassReader.ClassFileVersion.from' 45 0 = .ok ⟨.JavaSE_1_1, 0⟩
    ∧ Rsjvm.ClassFileVersion.from' 46 7 = .ok ⟨.JavaSE_1_2, 7⟩ := by
  refine ⟨?_, ?_, ?_, ?_⟩ <;> rfl

/-- C4: contrary to the claim, decoding ifeq (opcode 0x99) advances the PC
counter by only 1: the two branch-offset bytes are read through
byte_reader.read_u16 which bypasses the address counter, so a three-byte
branch instruction leaves the counter at starting_pc + 1 instead of
starting_pc + 3 (the spec's encoded length). -/
theorem readInstruction_branch_pc_undercount :
    readInstruction 0x99 ⟨ByteReader.new [0x00, 0x03], 0⟩
      = .ok ((.Ifeq 3, 0), ⟨ByteReader.new [0x00, 0x03], 1⟩)
    ∧ (1 : Nat) ≠ specBranchInstructionLength :=
  ⟨rfl, by decide⟩

/-- C5: contrary to the claim, the instruction dispatch is not total: the
todo arms (goto, newarray, tableswitch, wide, ...) and the default arm for
unassigned opcode bytes such as 0xcb end in a Rust panic rather than an
UnknownOpcode error. -/
theorem readInstruction_panics_on_todo_and_unknown :
    readInstruction 0xa7 ⟨ByteReader.new [], 0⟩ = .panicked "Goto"
    ∧ readInstruction 0xcb ⟨ByteReader.new [], 0⟩ = .panicked "at the disco"
    ∧ readInstruction 0xaa ⟨ByteReader.new [], 0⟩ = .panicked "Tableswitch"
    ∧ readInstruction 0xc4 ⟨ByteReader.new [], 0⟩ = .panicked "Wide"
    ∧ readInstruction 0xbc ⟨ByteReader.new [], 0⟩ = .panicked "Newarray" :=
  ⟨rfl, rfl, rfl, rfl, rfl⟩

/-- C6 counterexample: the rsjvm crate's MajorVersion::try_from has no arm
for 67, so try_from 67 fails although the claim requires every value from
45 through 67 to succeed. -/
theorem rsjvm_majorVersion_67_unsupported :
    Rsjvm.MajorVersion.tryFrom 67 = .error (.UnsupportedMajorVersion 67) := rfl

/-- C6 amended: the class-reader crate's MajorVersion::try_from succeeds
with the corresponding release (order-preserving: idx + 45 = input) exactly
for 45 through 67 and fails with UnsupportedMajorVersion otherwise; the
rsjvm crate's copy behaves the same with upper bound 66 instead of 67. -/
theorem majorVersion_tryFrom_ranges (v : Nat) (hv : v < 65536) :
    ((45 ≤ v ∧ v ≤ 67) →
      ∃ m, ClassReader.MajorVersion.tryFrom v = .ok m ∧ m.idx + 45 = v)
    ∧ (¬(45 ≤ v ∧ v ≤ 67) →
      ClassReader.MajorVersion.tryFrom v = .error (.UnsupportedMajorVersion v))
    ∧ ((45 ≤ v ∧ v ≤ 66) →
      ∃ m, Rsjvm.MajorVersion.tryFrom v = .ok m ∧ m.idx + 45 = v)
    ∧ (¬(45 ≤ v ∧ v ≤ 66) →
      Rsjvm.MajorVersion.tryFrom v = .error (.UnsupportedMajorVersion v)) := by
  refine ⟨?_, ?_, ?_, ?_⟩
  · rintro ⟨h1, h2⟩
    interval_cases v <;> exact ⟨_, rfl, rfl⟩
  · intro h
    have hd : v < 45 ∨ 67 < v := by omega
    rcases hd with hd | hd
    · interval_cases v <;> rfl
    · simp only [ClassReader.MajorVersion.tryFrom]
      repeat rw [if_neg (by omega)]
  · rintro ⟨h1, h2⟩
    interval_cases v <;> exact ⟨_, rfl, rfl⟩
  · intro h
    have hd : v < 45 ∨ 66 < v := by omega
    rcases hd with hd | hd
    · interval_cases v <;> rfl
    · simp only [Rsjvm.MajorVersion.tryFrom]
      repeat rw [if_neg (by omega)]

/-- C6 witness: the amended theorem applied at 67 (top of the class-reader
range) with its hypotheses discharged concretely. -/
theorem majorVersion_tryFrom_ranges_witness :
    ∃ m, ClassReader.MajorVersion.tryFrom 67 = .ok m ∧ m.idx + 45 = 67 :=
  (majorVersion_tryFrom_ranges 67 (by decide)).1 ⟨by decide, by decide⟩

/-- Helper: one ConstantPool::add preserves the invariant that every wide
entry is immediately followed by an Unsuable sentinel. -/
theorem add_preserves_wide_sentinel (p : ConstantPool) (c : Constant)
    (ih : ∀ i cw, p.constants[i]? = some cw → cw.isWideEntry = true →
      p.constants[i+1]? = some Constant.Unsuable) :
    ∀ i cw, (p.add c).constants[i]? = some cw → cw.isWideEntry = true →
      (p.add c).constants[i+1]? = some Constant.Unsuable := by
  intro i cw hget hwide
  by_cases hw : c.isWideEntry
  · simp only [ConstantPool.add, hw, if_pos] at hget ⊢
    have hlen : i < (p.constants ++ [c] ++ [Constant.Unsuable]).length := by
      by_contra hh
      push_neg at hh
      rw [List.getElem?_eq_none hh] at hget
      exact absurd hget (by simp)
    simp only [List.length_append, List.length_singleton] at hlen
    have hcases : i < p.constants.length ∨ i = p.constants.length
        ∨ i = p.constants.length + 1 := by omega
    rcases hcases with hi | hi | hi
    · rw [List.append_assoc, List.getElem?_append, if_pos hi] at hget
      have h2 := ih i cw hget hwide
      have h2len : i + 1 < p.constants.length := by
        by_contra hh
        push_neg at hh
        rw [List.getElem?_eq_none hh] at h2
        exact absurd h2 (by simp)
      rw [List.append_assoc, List.getElem?_append, if_pos h2len]
      exact h2
    · subst hi
      rw [List.getElem?_append_right (by simp)]
      simp
    · subst hi
      rw [List.getElem?_append_right (by simp)] at hget
      simp at hget
      rw [← hget] at hwide
      simp [Constant.isWideEntry] at hwide
  · simp only [ConstantPool.add, hw] at hget ⊢
    simp only [Bool.false_eq_true, if_false] at hget ⊢
    have hlen : i < (p.constants ++ [c]).length := by
      by_contra hh
      push_neg at hh
      rw [List.getElem?_eq_none hh] at hget
      exact absurd hget (by simp)
    simp only [List.length_append, List.length_singleton] at hlen
    have hcases : i < p.constants.length ∨ i = p.constants.length := by omega
    rcases hcases with hi | hi
    · rw [List.getElem?_append, if_pos hi] at hget
      have h2 := ih i cw hget hwide
      have h2len : i + 1 < p.constants.length := by
        by_contra hh
        push_neg at hh
        rw [List.getElem?_eq_none hh] at h2
        exact absurd h2 (by simp)
      rw [List.getElem?_append, if_pos h2len]
      exact h2
    · subst hi
      rw [List.getElem?_append_right (by simp)] at hget
      simp at hget
      rw [hget] at hw
      exact absurd hwide hw

/-- Helper: the sentinel invariant holds after folding any add sequence over
a pool that already satisfies it. -/
theorem foldl_add_wide_sentinel (cs : List Constant) (p : ConstantPool)
    (hp : ∀ i cw, p.constants[i]? = some cw → cw.isWideEntry = true →
      p.constants[i+1]? = some Constant.Unsuable) :
    ∀ i cw, (cs.foldl ConstantPool.add p).constants[i]? = some cw →
      cw.isWideEntry = true →
      (cs.foldl ConstantPool.add p).constants[i+1]? = some Constant.Unsuable := by
  induction cs generalizing p with
  | nil => simpa using hp
  | cons c cs ih =>
    exact fun i cw h1 h2 =>
      ih (p.add c) (add_preserves_wide_sentinel p c hp) i cw h1 h2

/-- C7: after any sequence of ConstantPool::add calls starting from the
empty pool, every Long or Double element of the stored sequence is
immediately followed by an Unsuable sentinel, and get at that sentinel's
position fails with UnsuableConstant. -/
theorem constantPool_wide_followed_by_sentinel (cs : List Constant) (i : Nat) (cw : Constant)
    (hget : (cs.foldl ConstantPool.add ConstantPool.empty).constants[i]? = some cw)
    (hwide : cw.isWideEntry = true) :
    (cs.foldl ConstantPool.add ConstantPool.empty).constants[i+1]? = some Constant.Unsuable
    ∧ (cs.foldl ConstantPool.add ConstantPool.empty).get (i+1)
      = .error (.UnsuableConstant (i+1)) := by
  have hbase : ∀ j cj, (ConstantPool.empty).constants[j]? = some cj →
      cj.isWideEntry = true → (ConstantPool.empty).constants[j+1]? = some Constant.Unsuable := by
    intro j cj hj _
    simp [ConstantPool.empty] at hj
  have hs := foldl_add_wide_sentinel cs ConstantPool.empty hbase i cw hget hwide
  refine ⟨hs, ?_⟩
  simp [ConstantPool.get, hs]

/-- C7 witness: the pool built by adding Long(5) has the sentinel at stored
position 1 and get 1 fails with UnsuableConstant 1. -/
theorem constantPool_wide_sentinel_witness :
    ([Constant.Long 5].foldl ConstantPool.add ConstantPool.empty).constants[1]?
      = some Constant.Unsuable
    ∧ ([Constant.Long 5].foldl ConstantPool.add ConstantPool.empty).get 1
      = .error (.UnsuableConstant 1) :=
  constantPool_wide_followed_by_sentinel [Constant.Long 5] 0 (.Long 5) rfl rfl

/-- C8: FieldType::try_from follows the descriptor grammar: each base-type
letter yields the matching Base type consuming one character; L accumulates
characters up to a required semicolon into Object (failing with NoSemicolon
when the stream ends first); an opening square bracket parses one element
descriptor recursively and wraps it in Array (propagating element errors);
the empty stream fails with UnexpectedEnd; any other leading character
fails with InvalidDescriptor. -/
theorem fieldType_tryFrom_grammar :
    (FieldType.tryFrom [] = .error .UnexpectedEnd)
    ∧ (∀ rest, FieldType.tryFrom ('B' :: rest) = .ok (.Base .Byte, rest))
    ∧ (∀ rest, FieldType.tryFrom ('C' :: rest) = .ok (.Base .Char, rest))
    ∧ (∀ rest, FieldType.tryFrom ('D' :: rest) = .ok (.Base .Double, rest))
    ∧ (∀ rest, FieldType.tryFrom ('F' :: rest) = .ok (.Base .Float, rest))
    ∧ (∀ rest, FieldType.tryFrom ('I' :: rest) = .ok (.Base .Int, rest))
    ∧ (∀ rest, FieldType.tryFrom ('J' :: rest) = .ok (.Base .Long, rest))
    ∧ (∀ rest, FieldType.tryFrom ('S' :: rest) = .ok (.Base .Short, rest))
    ∧ (∀ rest, FieldType.tryFrom ('Z' :: rest) = .ok (.Base .Boolean, rest))
    ∧ (∀ rest, ';' ∈ rest →
        FieldType.tryFrom ('L' :: rest)
          = .ok (.Object (String.mk (rest.takeWhile (fun c => c != ';'))),
              (rest.dropWhile (fun c => c != ';')).tail))
    ∧ (∀ rest, ';' ∉ rest → FieldType.tryFrom ('L' :: rest) = .error .NoSemicolon)
    ∧ (∀ rest t rem, FieldType.tryFrom rest = .ok (t, rem) →
        FieldType.tryFrom ('[' :: rest) = .ok (.Array t, rem))
    ∧ (∀ rest e, FieldType.tryFrom rest = .error e →
        FieldType.tryFrom ('[' :: rest) = .error e)
    ∧ (∀ ch rest, ch ∉ (['B', 'C', 'D', 'F', 'I', 'J', 'S', 'Z', 'L', '['] : List Char) →
        FieldType.tryFrom (ch :: rest) = .error .InvalidDescriptor) := by
  refine ⟨rfl, fun _ => rfl, fun _ => rfl, fun _ => rfl, fun _ => rfl, fun _ => rfl,
    fun _ => rfl, fun _ => rfl, fun _ => rfl, ?_, ?_, ?_, ?_, ?_⟩
  · intro rest hmem
    cases hD : rest.dropWhile (fun c => c != ';') with
    | nil =>
      have := List.dropWhile_eq_nil_iff.mp hD ';' hmem
      simp at this
    | cons d after =>
      simp only [FieldType.tryFrom, hD]
      rfl
  · intro rest hmem
    have hD : rest.dropWhile (fun c => c != ';') = [] := by
      refine List.dropWhile_eq_nil_iff.mpr ?_
      intro x hx
      simp only [bne_iff_ne, ne_eq]
      intro hxe
      exact hmem (hxe ▸ hx)
    simp only [FieldType.tryFrom, hD]
  · intro rest t rem h
    simp only [FieldType.tryFrom, h]
  · intro rest e h
    simp only [FieldType.tryFrom, h]
  · intro ch rest h
    simp only [FieldType.tryFrom]
    split <;> simp_all

/-- C8 witness: the grammar theorem applied at concrete descriptors, with
the membership and recursion hypotheses discharged by computation. -/
theorem fieldType_tryFrom_grammar_witness :
    FieldType.tryFrom ['L', 'A', ';', 'X'] = .ok (.Object "A", ['X'])
    ∧ FieldType.tryFrom ['L', 'A'] = .error .NoSemicolon
    ∧ FieldType.tryFrom ['[', 'I'] = .ok (.Array (.Base .Int), [])
    ∧ FieldType.tryFrom ['Q'] = .error .InvalidDescriptor := by
  obtain ⟨-, -, -, -, -, -, -, -, -, hL, hN, hA, -, hX⟩ := fieldType_tryFrom_grammar
  refine ⟨?_, ?_, ?_, ?_⟩
  · exact (hL ['A', ';', 'X'] (by decide)).trans rfl
  · exact hN ['A'] (by decide)
  · exact hA ['I'] (.Base .Int) [] rfl
  · exact hX 'Q' [] (by decide)

/-- Helper: the bit-OR fold distributes over list append. -/
theorem foldr_lor_append {α : Type} (f : α → Nat) (a b : List α) :
    (a ++ b).foldr (fun x acc => f x ||| acc) 0
      = a.foldr (fun x acc => f x ||| acc) 0 ||| b.foldr (fun x acc => f x ||| acc) 0 := by
  induction a with
  | nil => simp
  | cons x xs ih => simp [ih, Nat.lor_assoc]

/-- Helper: the bit-OR fold of a conditional singleton. -/
theorem foldr_lor_ite_single {α : Type} (f : α → Nat) (c : Prop) [Decidable c] (x : α) :
    ((if c then [x] else []).foldr (fun y acc => f y ||| acc) 0) = if c then f x else 0 := by
  split <;> simp

/-- Helper: testing a single bit with mask-and and re-emitting it equals the
mask-and itself. -/
theorem ite_and_bit (m v k : Nat) (hv : v = 2 ^ k) :
    (if m &&& v ≠ 0 then v else 0) = m &&& v := by
  subst hv
  rw [Nat.and_two_pow]
  cases h : m.testBit k <;> simp [h]

/-- Helper: and distributes over or on Nat, proved bitwise. -/
theorem land_lor_left (m a b : Nat) : (m &&& a) ||| (m &&& b) = m &&& (a ||| b) := by
  apply Nat.eq_of_testBit_eq
  intro i
  simp [Nat.testBit_lor, Nat.testBit_land, Bool.and_or_distrib_left]

/-- Helper: count of an element in a conditional singleton. -/
theorem count_ite_single {α : Type} [DecidableEq α] (f x : α) (c : Prop) [Decidable c] :
    (if c then [x] else []).count f = if c then (if x = f then 1 else 0) else 0 := by
  rcases eq_or_ne x f with h | h
  · subst h
    split <;> simp
  · have hfx : f ≠ x := Ne.symm h
    split <;> simp [List.count_eq_zero, hfx, h]

/-- Helper: count of an element in a conditional singleton, flipped branches. -/
theorem count_ite_nil_single {α : Type} [DecidableEq α] (f x : α) (c : Prop) [Decidable c] :
    (if c then [] else [x]).count f = if c then 0 else (if x = f then 1 else 0) := by
  rcases eq_or_ne x f with h | h
  · subst h
    split <;> simp
  · have hfx : f ≠ x := Ne.symm h
    split <;> simp [List.count_eq_zero, hfx, h]

/-- Helper: OR round trip for the class flag decoder (0xF631 is the OR of
its nine recognized bits). -/
theorem orOfClassFlags_new (m : Nat) :
    orOfClassFlags (ClassFileAccessFlags.new m) = m &&& 0xF631 := by
  unfold ClassFileAccessFlags.new orOfClassFlags
  repeat rw [foldr_lor_append]
  repeat rw [foldr_lor_ite_single]
  simp only [ClassAccessFlag.bit]
  rw [ite_and_bit m 0x0001 0 (by norm_num), ite_and_bit m 0x0010 4 (by norm_num),
    ite_and_bit m 0x0020 5 (by norm_num), ite_and_bit m 0x0200 9 (by norm_num),
    ite_and_bit m 0x0400 10 (by norm_num), ite_and_bit m 0x1000 12 (by norm_num),
    ite_and_bit m 0x2000 13 (by norm_num), ite_and_bit m 0x4000 14 (by norm_num),
    ite_and_bit m 0x8000 15 (by norm_num)]
  repeat rw [land_lor_left]
  congr 1

/-- Helper: OR round trip for the field flag decoder (0x50DF is the OR of
its nine recognized bits). -/
theorem orOfFieldFlags_new (m : Nat) :
    orOfFieldFlags (FieldAccessFlags.new m) = m &&& 0x50DF := by
  unfold FieldAccessFlags.new orOfFieldFlags
  repeat rw [foldr_lor_append]
  repeat rw [foldr_lor_ite_single]
  simp only [FieldAccessFlag.bit]
  rw [ite_and_bit m 0x0001 0 (by norm_num), ite_and_bit m 0x0002 1 (by norm_num),
    ite_and_bit m 0x0004 2 (by norm_num), ite_and_bit m 0x0008 3 (by norm_num),
    ite_and_bit m 0x0010 4 (by norm_num), ite_and_bit m 0x0040 6 (by norm_num),
    ite_and_bit m 0x0080 7 (by norm_num), ite_and_bit m 0x1000 12 (by norm_num),
    ite_and_bit m 0x4000 14 (by norm_num)]
  repeat rw [land_lor_left]
  congr 1

/-- Helper: OR round trip for the method flag decoder (0x1DFF is the OR of
its twelve recognized bits). -/
theorem orOfMethodFlags_new (m : Nat) :
    orOfMethodFlags (MethodAccessFlags.new m) = m &&& 0x1DFF := by
  unfold MethodAccessFlags.new orOfMethodFlags
  repeat rw [foldr_lor_append]
  repeat rw [foldr_lor_ite_single]
  simp only [MethodFlag.bit]
  rw [ite_and_bit m 0x0001 0 (by norm_num), ite_and_bit m 0x0002 1 (by norm_num),
    ite_and_bit m 0x0004 2 (by norm_num), ite_and_bit m 0x0008 3 (by norm_num),
    ite_and_bit m 0x0010 4 (by norm_num), ite_and_bit m 0x0020 5 (by norm_num),
    ite_and_bit m 0x0040 6 (by norm_num), ite_and_bit m 0x0080 7 (by norm_num),
    ite_and_bit m 0x0100 8 (by norm_num), ite_and_bit m 0x0400 10 (by norm_num),
    ite_and_bit m 0x0800 11 (by norm_num), ite_and_bit m 0x1000 12 (by norm_num)]
  repeat rw [land_lor_left]
  congr 1

/-- Helper: each class flag occurs in the decoded list exactly when its bit
is set in the mask, and then exactly once. -/
theorem count_classFlags_new (m : Nat) (f : ClassAccessFlag) :
    (ClassFileAccessFlags.new m).count f = if m &&& f.bit ≠ 0 then 1 else 0 := by
  cases f <;>
    simp [ClassFileAccessFlags.new, List.count_append, count_ite_single,
      count_ite_nil_single, ClassAccessFlag.bit]

/-- Helper: each field flag occurs in the decoded list exactly when its bit
is set in the mask, and then exactly once. -/
theorem count_fieldFlags_new (m : Nat) (f : FieldAccessFlag) :
    (FieldAccessFlags.new m).count f = if m &&& f.bit ≠ 0 then 1 else 0 := by
  cases f <;>
    simp [FieldAccessFlags.new, List.count_append, count_ite_single,
      count_ite_nil_single, FieldAccessFlag.bit]

/-- Helper: each method flag occurs in the decoded list exactly when its bit
is set in the mask, and then exactly once. -/
theorem count_methodFlags_new (m : Nat) (f : MethodFlag) :
    (MethodAccessFlags.new m).count f = if m &&& f.bit ≠ 0 then 1 else 0 := by
  cases f <;>
    simp [MethodAccessFlags.new, List.count_append, count_ite_single,
      count_ite_nil_single, MethodFlag.bit]

/-- C9: for each of the three access-flag decoders and every u16 mask, the
OR of the bit values of the decoded flag set equals the mask with all
unrecognized bits cleared, and each recognized set bit contributes exactly
one flag (count 1 when the bit is set, 0 otherwise). -/
theorem accessFlags_mask_roundtrip (m : Nat) (hm : m < 65536) :
    (orOfClassFlags (ClassFileAccessFlags.new m) = m &&& 0xF631
      ∧ ∀ f : ClassAccessFlag, (ClassFileAccessFlags.new m).count f
          = if m &&& f.bit ≠ 0 then 1 else 0)
    ∧ (orOfFieldFlags (FieldAccessFlags.new m) = m &&& 0x50DF
      ∧ ∀ f : FieldAccessFlag, (FieldAccessFlags.new m).count f
          = if m &&& f.bit ≠ 0 then 1 else 0)
    ∧ (orOfMethodFlags (MethodAccessFlags.new m) = m &&& 0x1DFF
      ∧ ∀ f : MethodFlag, (MethodAccessFlags.new m).count f
          = if m &&& f.bit ≠ 0 then 1 else 0) :=
  ⟨⟨orOfClassFlags_new m, count_classFlags_new m⟩,
    ⟨orOfFieldFlags_new m, count_fieldFlags_new m⟩,
    ⟨orOfMethodFlags_new m, count_methodFlags_new m⟩⟩

/-- C9 witness: the round trip evaluated on the repository's own test mask
0x0031 (public final super) and a method mask with the native bit set. -/
theorem accessFlags_mask_roundtrip_witness :
    orOfClassFlags (ClassFileAccessFlags.new 0x0031) = 0x0031
    ∧ (ClassFileAccessFlags.new 0x0031).count .Public = 1
    ∧ (MethodAccessFlags.new 0x0109).count .Native = 1 := by
  have h := accessFlags_mask_roundtrip 0x0031 (by decide)
  have h2 := accessFlags_mask_roundtrip 0x0109 (by decide)
  refine ⟨?_, ?_, ?_⟩
  · have := h.1.1
    simpa using this
  · have := h.1.2 .Public
    simpa using this
  · have := h2.2.2.2 .Native
    simpa using this

/-- Helper: Outcome bind on an ok value. -/
theorem outcome_bind_ok {α β : Type} (a : α) (f : α → Outcome β) :
    (Outcome.ok a >>= f) = f a := rfl

/-- Helper: Outcome bind on an error. -/
theorem outcome_bind_err {α β : Type} (e : ClassReaderError) (f : α → Outcome β) :
    (Outcome.err e >>= f) = .err e := rfl

/-- Helper: Outcome bind on a panic. -/
theorem outcome_bind_panicked {α β : Type} (s : String) (f : α → Outcome β) :
    (Outcome.panicked s >>= f) = .panicked s := rfl

/-- Helper: on success the constant pool loop appends exactly one decoded
constant per visited range element. -/
theorem readConstantPoolLoop_length (l : List Nat) :
    ∀ r pool acc r' pool' acc',
      readConstantPoolLoop l r pool acc = .ok (r', pool', acc') →
      acc'.length = acc.length + l.length := by
  induction l with
  | nil =>
    intro r pool acc r' pool' acc' h
    simp only [readConstantPoolLoop, Outcome.ok.injEq, Prod.mk.injEq] at h
    obtain ⟨-, -, h3⟩ := h
    simp [← h3]
  | cons i rest ih =>
    intro r pool acc r' pool' acc' h
    simp only [readConstantPoolLoop] at h
    cases h1 : liftRead (α := Nat) r.read_u8 with
    | err e => rw [h1, outcome_bind_err] at h; exact absurd h (by simp)
    | panicked s => rw [h1, outcome_bind_panicked] at h; exact absurd h (by simp)
    | ok v =>
      obtain ⟨tag, r1⟩ := v
      rw [h1, outcome_bind_ok] at h
      cases h2 : readTaggedConstant tag r1 with
      | err e => rw [h2, outcome_bind_err] at h; exact absurd h (by simp)
      | panicked s => rw [h2, outcome_bind_panicked] at h; exact absurd h (by simp)
      | ok w =>
        obtain ⟨c, r2⟩ := w
        rw [h2, outcome_bind_ok] at h
        have := ih r2 (pool.add c) (acc ++ [c]) r' pool' acc' h
        simp only [List.length_append, List.length_cons, List.length_nil] at this ⊢
        omega

/-- C10: the pool-reading loop over the Rust range 1..constant_pool_count
performs exactly constant_pool_count - 1 tag-dispatch iterations, one
decoded tagged constant per iteration, for every input on which it
succeeds; in particular a decoded Long or Double (whose add appends two
pool slots and whose arm adds one to the dead loop variable) does not skip
the following iteration. -/
theorem readConstantPool_iteration_count (n : Nat) (r r' : ByteReader)
    (pool' : ConstantPool) (cs : List Constant)
    (h : readConstantPoolLoop (List.range' 1 (n - 1)) r ConstantPool.empty []
      = .ok (r', pool', cs)) :
    cs.length = n - 1 := by
  have := readConstantPoolLoop_length (List.range' 1 (n - 1)) r ConstantPool.empty []
    r' pool' cs h
  simpa using this

/-- C10 witness: a pool with declared count 3 whose two tagged entries are
both Longs still decodes two tagged entries (four pool slots). -/
theorem readConstantPool_iteration_count_witness :
    ([Constant.Long 360287970189639687, Constant.Long 360287970189639687]
      : List Constant).length = 3 - 1 :=
  readConstantPool_iteration_count 3 (ByteReader.new [5, 0, 0, 0, 0, 0, 0, 7])
    (ByteReader.new [5, 0, 0, 0, 0, 0, 0, 7])
    ⟨[.Long 360287970189639687, .Unsuable, .Long 360287970189639687, .Unsuable]⟩
    [.Long 360287970189639687, .Long 360287970189639687] rfl
